import Mathlib

/-!
Shallow embedding of the schema-inferring load pipeline of
`src/main.py` (classes `DataLake` / `DataWarehouse`).

The embedded functions keep the names of the Python functions they
translate: `get_mysql_field` (main.py lines 257-294), `create_query`
(lines 296-322) and `load_transformed` (lines 324-355).  Machine
integers are modelled as `Nat`/`Int`; a Python function that can raise
is modelled as `Except String _` whose error value carries the
exception text.
-/

namespace Loka

/--
A scalar cell value, as it sits in a pandas DataFrame column that was
built by `pd.DataFrame(list_of_records)` (see `read_from_db`,
main.py lines 192-218).  Floating-point values are carried by their
Python string serialization only (no arithmetic on them is modelled,
and none is performed by the source).  `null` is an explicit Python
`None` stored in an object column; `nan` is the float NaN that pandas
inserts for a field missing from a record.
-/
inductive Value where
  | int (n : Int)
  | float (repr : String)
  | str (s : String)
  | bool (b : Bool)
  | null
  | nan
deriving DecidableEq

/--
Element-wise serialization performed by `df[field].astype(str)`
(main.py line 316): Python `str()` of the stored object.
`str(None) = "None"` (4 chars), `str(nan) = "nan"` (3 chars),
`str(True) = "True"`, `str(False) = "False"`, integers print in
decimal.
-/
def pyStr : Value → String
  | Value.int n => toString n
  | Value.float r => r
  | Value.str s => s
  | Value.bool b => if b then "True" else "False"
  | Value.null => "None"
  | Value.nan => "nan"

/--
`df[field].astype(str).str.len().max()` (main.py line 316): the
maximum over the column of the serialized length of each cell.
A column coming from a nonempty record list is nonempty; on the empty
list the fold returns 0 (pandas would return NaN there, but such a
column cannot arise from `pd.DataFrame` of a nonempty record list,
and no claim concerns an empty batch).
-/
def strLenMax (vals : List Value) : Nat :=
  (vals.map (fun v => (pyStr v).length)).foldr Nat.max 0

/-- Does the character list `hay` start with `needle`? -/
def startsWithList : List Char → List Char → Bool
  | [], _ => true
  | _ :: _, [] => false
  | a :: as, b :: bs => a == b && startsWithList as bs

/-- Is `needle` a contiguous sublist of `hay`? -/
def hasSubList (needle : List Char) : List Char → Bool
  | [] => needle.isEmpty
  | b :: bs => startsWithList needle (b :: bs) || hasSubList needle bs

/--
The Python substring test `needle in hay` used by the branch guards
of `get_mysql_field` (main.py lines 274-289).
-/
def containsSub (hay needle : String) : Bool :=
  hasSubList needle.toList hay.toList

/--
Python `str.lower()` as applied at main.py line 273.  `Char.toLower`
lowers exactly the basic latin letters, which matches Python on the
ASCII dtype labels pandas produces (`int64`, `float64`, `object`,
`bool`, `datetime64[ns]`, ...).
-/
def pyLower (s : String) : String :=
  String.mk (s.toList.map Char.toLower)

/--
`DataWarehouse.get_mysql_field(type, length)` (main.py lines 257-294).
The dtype label is stringified and lower-cased, then matched by
substring in the fixed order int, float, object, datetime, date, bool;
the object branch turns `length` into the VARCHAR width, defaulting to
100 when `length == 0` and clamping at `int(10e3) = 10000`; an
unmatched label raises `ValueError` (modelled as `Except.error`).
-/
def get_mysql_field (ty : String) (length : Nat) : Except String String :=
  let t := pyLower ty
  if containsSub t "int" then Except.ok "INT"
  else if containsSub t "float" then Except.ok "DOUBLE"
  else if containsSub t "object" then
    let l := if length = 0 then 100
             else if length > 10000 then 10000
             else length
    Except.ok ("VARCHAR(" ++ toString l ++ ")")
  else if containsSub t "datetime" then Except.ok "DATETIME"
  else if containsSub t "date" then Except.ok "DATE"
  else if containsSub t "bool" then Except.ok "BOOL"
  else Except.error ("Unknown type " ++ t)

/--
The disjunction of the six branch guards of `get_mysql_field`: does
the lower-cased label contain one of the substrings the code
recognizes?
-/
def recognizedLabel (ty : String) : Bool :=
  containsSub (pyLower ty) "int" || containsSub (pyLower ty) "float" ||
  containsSub (pyLower ty) "object" || containsSub (pyLower ty) "datetime" ||
  containsSub (pyLower ty) "date" || containsSub (pyLower ty) "bool"

/-- Is an `Except` value a success?  (`Except.isOk` spelled out.) -/
def exOk {α : Type} : Except String α → Bool
  | Except.ok _ => true
  | Except.error _ => false

instance {ε α : Type} [DecidableEq ε] [DecidableEq α] : DecidableEq (Except ε α) := by
  intro a b
  cases a <;> cases b
  case error.error e f => exact decidable_of_iff (e = f) (by simp)
  case ok.ok x y => exact decidable_of_iff (x = y) (by simp)
  all_goals exact isFalse (by simp)

example : get_mysql_field "int64" 0 = Except.ok "INT" := by decide
example : get_mysql_field "float64" 0 = Except.ok "DOUBLE" := by decide
example : get_mysql_field "object" 11 = Except.ok "VARCHAR(11)" := by decide
example : get_mysql_field "object" 0 = Except.ok "VARCHAR(100)" := by decide
example : get_mysql_field "object" 10001 = Except.ok "VARCHAR(10000)" := by decide
example : get_mysql_field "bool" 0 = Except.ok "BOOL" := by decide
example : get_mysql_field "datetime64[ns]" 0 = Except.ok "DATETIME" := by decide
example : get_mysql_field "complex" 0 = Except.error ("Unknown type complex") := by decide
example : get_mysql_field "string" 5 = Except.error ("Unknown type string") := by decide
example : get_mysql_field "Int64" 0 = Except.ok "INT" := by decide

/--
One record of a batch, as read back from the document store: an
ordered association of field name to scalar value (spec §3; produced
by `read_from_db`, main.py lines 192-218).
-/
def Rec : Type := List (String × Value)

instance : DecidableEq Rec := by
  unfold Rec
  infer_instance

/--
One column of the pandas DataFrame `pd.DataFrame(records)`: its name,
the `str()` of its pandas dtype, and its cells in record order.
`pd.DataFrame` lays the columns out in first-seen field order and
fills a field missing from a record with NaN.
-/
structure Column where
  name : String
  dtype : String
  vals : List Value
deriving DecidableEq

/-- The `length` argument `create_query` passes for one field (main.py line 316). -/
def colLength (c : Column) : Nat := strLenMax c.vals

/--
The list comprehension inside `create_query` (main.py lines 312-319):
for each column, in order, the string `"{field} {type}"` with the type
token from `get_mysql_field`; the first `ValueError` raised by
`get_mysql_field` aborts the whole comprehension.
-/
def fieldEntries : List Column → Except String (List String)
  | [] => Except.ok []
  | c :: cs =>
    match get_mysql_field c.dtype (colLength c) with
    | Except.error e => Except.error e
    | Except.ok f =>
      match fieldEntries cs with
      | Except.error e => Except.error e
      | Except.ok rest => Except.ok ((c.name ++ " " ++ f) :: rest)

/--
`DataWarehouse.create_query(df, table_name)` (main.py lines 296-322):
joins the per-field entries with the separator `",\n"` (a comma and a
newline, main.py line 312) and interpolates them into
`CREATE TABLE IF NOT EXISTS {table} ({fields});`.
-/
def create_query (df : List Column) (table : String) : Except String String :=
  match fieldEntries df with
  | Except.error e => Except.error e
  | Except.ok es =>
    Except.ok ("CREATE TABLE IF NOT EXISTS " ++ table ++ " (" ++
      String.intercalate ",\n" es ++ ");")

/--
The names the f-string literal at main.py lines 335-340 interpolates:
`table_name`, `columns` and `values`.
-/
def loadQueryFreeNames : List String := ["table_name", "columns", "values"]

/--
The names bound in the scope of `load_transformed` when its body
starts executing: the parameters `self`, `conncursor` and `data`
(main.py line 324).  No global of `main.py` is named `table_name`,
`columns` or `values` either.
-/
def loadScopeNames : List String := ["self", "conncursor", "data"]

/--
`DataWarehouse.load_transformed(conncursor, data)` (main.py lines
324-355).  Its first statement evaluates an f-string that reads the
names `table_name`, `columns` and `values`; Python resolves each name
against the enclosing scope and raises `NameError` at the first one
that is unbound.  Only if all of them resolved would the body reach
the bulk upsert; the function body has no return statement, so the
non-raising path would fall off the end and return `None` (modelled
as `Unit`), never a row count.
-/
def load_transformed (data : List Rec) : Except String Unit :=
  match loadQueryFreeNames.find? (fun n => !(loadScopeNames.contains n)) with
  | some n => Except.error ("NameError: name " ++ n ++ " is not defined")
  | none => Except.ok ()

/-- Field projection of a record batch: the column of values for field
`f`, one per record, a missing field becoming NaN exactly as
`pd.DataFrame` does. -/
def colVals (f : String) (rs : List Rec) : List Value :=
  rs.map (fun r => (r.lookup f).getD Value.nan)

/--
The example batch of spec §8:
`[{"id":1,"name":"Ana","amt":12.5},{"id":2,"name":"Bartholomew","amt":7}]`
as the DataFrame `pd.DataFrame` builds from it (pandas dtypes:
`int64`, `object`, `float64`).
-/
def exampleDF : List Column :=
  [ ⟨"id", "int64", [Value.int 1, Value.int 2]⟩,
    ⟨"name", "object", [Value.str "Ana", Value.str "Bartholomew"]⟩,
    ⟨"amt", "float64", [Value.float "12.5", Value.float "7.0"]⟩ ]

/-- The example batch of spec §8 as a record list. -/
def exampleBatch : List Rec :=
  [ [("id", Value.int 1), ("name", Value.str "Ana"), ("amt", Value.float "12.5")],
    [("id", Value.int 2), ("name", Value.str "Bartholomew"), ("amt", Value.float "7.0")] ]

example : create_query exampleDF "t" =
    Except.ok "CREATE TABLE IF NOT EXISTS t (id INT,\nname VARCHAR(11),\namt DOUBLE);" := by
  decide

example : load_transformed exampleBatch =
    Except.error "NameError: name table_name is not defined" := by decide

/-! Helper lemmas (shared; none of them is a claim theorem). -/

/-- A basic-latin code point stays itself under `Char.ofNat` then `Char.toNat`. -/
theorem char_toNat_ofNat_small (n : Nat) (h : n < 55296) : (Char.ofNat n).toNat = n := by
  rw [Char.ofNat, dif_pos (Or.inl h)]
  rfl

/-- `Char.toLower` is idempotent. -/
theorem char_toLower_idem (c : Char) : Char.toLower (Char.toLower c) = Char.toLower c := by
  by_cases h : c.toNat ≥ 65 ∧ c.toNat ≤ 90
  · have h1 : Char.toLower c = Char.ofNat (c.toNat + 32) := by
      unfold Char.toLower
      rw [if_pos h]
    have h2 : (Char.ofNat (c.toNat + 32)).toNat = c.toNat + 32 :=
      char_toNat_ofNat_small _ (by omega)
    rw [h1]
    unfold Char.toLower
    rw [if_neg (by omega)]
  · have h1 : Char.toLower c = c := by
      unfold Char.toLower
      rw [if_neg h]
    rw [h1, h1]

/-- `pyLower` is idempotent (so lower-casing before the substring tests
makes `get_mysql_field` insensitive to the case of its label). -/
theorem pyLower_idem (s : String) : pyLower (pyLower s) = pyLower s := by
  unfold pyLower
  have h : (String.mk (s.toList.map Char.toLower)).toList = s.toList.map Char.toLower := rfl
  rw [h, List.map_map]
  exact congrArg String.mk (List.map_congr_left (fun c _ => char_toLower_idem c))

/-- `get_mysql_field` succeeds exactly on recognized labels. -/
theorem exOk_get_mysql_field (ty : String) (l : Nat) :
    exOk (get_mysql_field ty l) = recognizedLabel ty := by
  by_cases h1 : containsSub (pyLower ty) "int" <;>
  by_cases h2 : containsSub (pyLower ty) "float" <;>
  by_cases h3 : containsSub (pyLower ty) "object" <;>
  by_cases h4 : containsSub (pyLower ty) "datetime" <;>
  by_cases h5 : containsSub (pyLower ty) "date" <;>
  by_cases h6 : containsSub (pyLower ty) "bool" <;>
  simp [get_mysql_field, recognizedLabel, exOk, h1, h2, h3, h4, h5, h6]

/-- On an object-dtype label the field is a VARCHAR whose width is the
length after the default and clamp branches (main.py lines 278-283). -/
theorem get_mysql_field_object (ty : String) (l : Nat)
    (hobj : containsSub (pyLower ty) "object" = true)
    (hint : containsSub (pyLower ty) "int" = false)
    (hfl : containsSub (pyLower ty) "float" = false) :
    get_mysql_field ty l = Except.ok ("VARCHAR(" ++
      toString (if l = 0 then 100 else if l > 10000 then 10000 else l) ++ ")") := by
  simp [get_mysql_field, hobj, hint, hfl]

/-- Every member of a list of naturals is at most its max-fold. -/
theorem le_foldrMax_of_mem {x : Nat} {u : List Nat} (h : x ∈ u) :
    x ≤ u.foldr Nat.max 0 := by
  induction u with
  | nil => cases h
  | cons a as ih =>
    simp only [List.foldr_cons]
    cases h with
    | head => exact Nat.le_max_left _ _
    | tail _ hm => exact Nat.le_trans (ih hm) (Nat.le_max_right _ _)

/-- The max-fold of a list of naturals is at most any common upper bound. -/
theorem foldrMax_le {u : List Nat} {k : Nat} (h : ∀ x ∈ u, x ≤ k) :
    u.foldr Nat.max 0 ≤ k := by
  induction u with
  | nil => exact Nat.zero_le k
  | cons a as ih =>
    have ha := h a (by simp)
    have has := ih (fun x hx => h x (by simp [hx]))
    simpa [Nat.max_le] using And.intro ha has

/-- `strLenMax` is monotone under list containment. -/
theorem strLenMax_mono {u v : List Value} (h : u ⊆ v) :
    strLenMax u ≤ strLenMax v := by
  unfold strLenMax
  apply foldrMax_le
  intro x hx
  simp only [List.mem_map] at hx
  obtain ⟨val, hval, hveq⟩ := hx
  subst hveq
  exact le_foldrMax_of_mem (List.mem_map_of_mem _ (h hval))

/-- The per-column entries of `create_query`, under the assumption that
every column maps to the token `tok` of it. -/
theorem fieldEntries_ok (df : List Column) (tok : Column → String)
    (h : ∀ c ∈ df, get_mysql_field c.dtype (colLength c) = Except.ok (tok c)) :
    fieldEntries df = Except.ok (df.map (fun c => c.name ++ " " ++ tok c)) := by
  induction df with
  | nil => rfl
  | cons c cs ih =>
    have hc := h c (by simp)
    have hcs := ih (fun x hx => h x (by simp [hx]))
    simp [fieldEntries, hc, hcs]

/-- `create_query` succeeds exactly when `fieldEntries` does. -/
theorem exOk_create_query (df : List Column) (t : String) :
    exOk (create_query df t) = exOk (fieldEntries df) := by
  unfold create_query
  cases fieldEntries df <;> rfl

/-- Claim C1, as stated, is false: the code recognizes the substring
"object", not "string".  The label "string" contains the substring
"string" yet `get_mysql_field` raises `ValueError` for it, instead of
yielding the STRING affinity. -/
theorem C1_counterexample :
    containsSub (pyLower "string") "string" = true ∧
    get_mysql_field "string" 5 = Except.error ("Unknown type string") := by
  decide

/-- Claim C1 (amended): the six recognized substrings are "int",
"float", "object", "datetime", "date" and "bool" (not "string").  For
every value-kind label containing one of them after lower-casing,
`get_mysql_field` never raises and returns the corresponding affinity
token, following the code precedence, first match wins: a label
containing "int" yields INT; otherwise "float" yields DOUBLE;
otherwise "object" yields the STRING affinity, a VARCHAR column;
otherwise "datetime" yields DATETIME; otherwise "date" yields DATE;
otherwise "bool" yields BOOL. -/
theorem C1_affinity_totality (ty : String) (l : Nat) :
    (recognizedLabel ty = true → exOk (get_mysql_field ty l) = true) ∧
    (containsSub (pyLower ty) "int" = true →
     get_mysql_field ty l = Except.ok "INT") ∧
    (containsSub (pyLower ty) "int" = false →
     containsSub (pyLower ty) "float" = true →
     get_mysql_field ty l = Except.ok "DOUBLE") ∧
    (containsSub (pyLower ty) "int" = false →
     containsSub (pyLower ty) "float" = false →
     containsSub (pyLower ty) "object" = true →
     ∃ w : Nat, get_mysql_field ty l = Except.ok ("VARCHAR(" ++ toString w ++ ")")) ∧
    (containsSub (pyLower ty) "int" = false →
     containsSub (pyLower ty) "float" = false →
     containsSub (pyLower ty) "object" = false →
     containsSub (pyLower ty) "datetime" = true →
     get_mysql_field ty l = Except.ok "DATETIME") ∧
    (containsSub (pyLower ty) "int" = false →
     containsSub (pyLower ty) "float" = false →
     containsSub (pyLower ty) "object" = false →
     containsSub (pyLower ty) "datetime" = false →
     containsSub (pyLower ty) "date" = true →
     get_mysql_field ty l = Except.ok "DATE") ∧
    (containsSub (pyLower ty) "int" = false →
     containsSub (pyLower ty) "float" = false →
     containsSub (pyLower ty) "object" = false →
     containsSub (pyLower ty) "datetime" = false →
     containsSub (pyLower ty) "date" = false →
     containsSub (pyLower ty) "bool" = true →
     get_mysql_field ty l = Except.ok "BOOL") := by
  refine ⟨?_, ?_, ?_, ?_, ?_, ?_, ?_⟩
  · intro h
    rw [exOk_get_mysql_field]
    exact h
  · intro h1
    simp [get_mysql_field, h1]
  · intro h1 h2
    simp [get_mysql_field, h1, h2]
  · intro h1 h2 h3
    exact ⟨_, get_mysql_field_object ty l h3 h1 h2⟩
  · intro h1 h2 h3 h4
    simp [get_mysql_field, h1, h2, h3, h4]
  · intro h1 h2 h3 h4 h5
    simp [get_mysql_field, h1, h2, h3, h4, h5]
  · intro h1 h2 h3 h4 h5 h6
    simp [get_mysql_field, h1, h2, h3, h4, h5, h6]

/-- Witness for C1_affinity_totality: one concrete pandas dtype label
per recognized substring, each discharging the precedence hypotheses
of the matching conjunct. -/
theorem C1_affinity_totality_witness :
    exOk (get_mysql_field "Int64" 7) = true ∧
    get_mysql_field "int64" 7 = Except.ok "INT" ∧
    get_mysql_field "float64" 7 = Except.ok "DOUBLE" ∧
    (∃ w : Nat, get_mysql_field "object" 7 = Except.ok ("VARCHAR(" ++ toString w ++ ")")) ∧
    get_mysql_field "datetime64[ns]" 7 = Except.ok "DATETIME" ∧
    get_mysql_field "date" 7 = Except.ok "DATE" ∧
    get_mysql_field "bool" 7 = Except.ok "BOOL" :=
  ⟨(C1_affinity_totality "Int64" 7).1 (by decide),
   (C1_affinity_totality "int64" 7).2.1 (by decide),
   (C1_affinity_totality "float64" 7).2.2.1 (by decide) (by decide),
   (C1_affinity_totality "object" 7).2.2.2.1 (by decide) (by decide) (by decide),
   (C1_affinity_totality "datetime64[ns]" 7).2.2.2.2.1
     (by decide) (by decide) (by decide) (by decide),
   (C1_affinity_totality "date" 7).2.2.2.2.2.1
     (by decide) (by decide) (by decide) (by decide) (by decide),
   (C1_affinity_totality "bool" 7).2.2.2.2.2.2
     (by decide) (by decide) (by decide) (by decide) (by decide) (by decide)⟩

/-- Claim C2, as stated, is false on its zero-non-null clause: pandas
`astype(str)` serializes a null cell too (`None` prints as "None", 4
characters), so a field whose values are all null gets width 4, not
the default 100. -/
theorem C2_counterexample :
    get_mysql_field "object" (strLenMax [Value.null, Value.null]) =
      Except.ok "VARCHAR(4)" ∧
    get_mysql_field "object" (strLenMax [Value.null, Value.null]) ≠
      Except.ok "VARCHAR(100)" := by
  decide

/-- Claim C2 (amended): for a STRING-affinity field the inferred width
equals the maximum string-serialized length of the field cells (null
cells included, serialized by `str()`), except that a maximum of 0
defaults to 100 and a maximum above 10000 is clamped to 10000. -/
theorem C2_width_formula (ty : String) (vals : List Value)
    (hobj : containsSub (pyLower ty) "object" = true)
    (hint : containsSub (pyLower ty) "int" = false)
    (hfl : containsSub (pyLower ty) "float" = false) :
    get_mysql_field ty (strLenMax vals) = Except.ok ("VARCHAR(" ++
      toString (if strLenMax vals = 0 then 100 else min (strLenMax vals) 10000) ++ ")") := by
  rw [get_mysql_field_object ty (strLenMax vals) hobj hint hfl]
  congr 3
  by_cases h0 : strLenMax vals = 0
  · simp [h0]
  · simp only [if_neg h0, Nat.min_def]
    by_cases h1 : strLenMax vals > 10000
    · rw [if_pos h1, if_neg (by omega)]
    · rw [if_neg h1, if_pos (by omega)]

/-- Witness for C2_width_formula on the column of the single value "abc". -/
theorem C2_width_formula_witness :
    get_mysql_field "object" (strLenMax [Value.str "abc"]) = Except.ok ("VARCHAR(" ++
      toString (if strLenMax [Value.str "abc"] = 0 then 100
                else min (strLenMax [Value.str "abc"]) 10000) ++ ")") :=
  C2_width_formula "object" [Value.str "abc"] (by decide) (by decide) (by decide)

/-- Claim C10: `get_mysql_field` is insensitive to the case of the
value-kind label, because the label is stringified and lower-cased
before any substring test. -/
theorem C10_case_insensitive (ty : String) (l : Nat) :
    get_mysql_field (pyLower ty) l = get_mysql_field ty l := by
  unfold get_mysql_field
  rw [pyLower_idem]

/-- `fieldEntries` succeeds exactly when every label is recognized. -/
theorem exOk_fieldEntries (df : List Column) :
    exOk (fieldEntries df) = df.all (fun c => recognizedLabel c.dtype) := by
  induction df with
  | nil => rfl
  | cons c cs ih =>
    have hc := exOk_get_mysql_field c.dtype (colLength c)
    unfold fieldEntries
    cases hg : get_mysql_field c.dtype (colLength c) with
    | error e =>
      rw [hg] at hc
      simp [exOk] at hc
      simp [exOk, List.all_cons, ← hc]
    | ok f =>
      rw [hg] at hc
      simp [exOk] at hc
      rw [List.all_cons, hc, Bool.true_and, ← ih]
      cases hr : fieldEntries cs <;> simp [exOk, hr]

/-- Claim C5: schema inference is all-or-nothing per batch.
`create_query` returns a DDL string exactly when every field of the
DataFrame has a recognized value-kind label; a single unrecognized
label makes the whole call raise, returning neither a partial schema
nor a DDL string. -/
theorem C5_all_or_nothing (df : List Column) (t : String) :
    exOk (create_query df t) = df.all (fun c => recognizedLabel c.dtype) := by
  rw [exOk_create_query, exOk_fieldEntries]

/-- One column token assignment for the two-column DataFrame used to
exercise the DDL shape. -/
def twoColDF : List Column :=
  [ ⟨"a", "int64", [Value.int 1]⟩, ⟨"b", "bool", [Value.bool true]⟩ ]

/-- Claim C4, as stated, is false on the separator: the code joins the
column entries with a comma and a newline (main.py line 312), not with
a comma and a space. -/
theorem C4_counterexample :
    create_query twoColDF "t" =
      Except.ok "CREATE TABLE IF NOT EXISTS t (a INT,\nb BOOL);" ∧
    create_query twoColDF "t" ≠
      Except.ok "CREATE TABLE IF NOT EXISTS t (a INT, b BOOL);" := by
  decide

/-- Claim C4 (amended): for every DataFrame whose inference succeeds
(witnessed by a token for each column) and every table name,
`create_query` returns exactly one statement of the shape
`CREATE TABLE IF NOT EXISTS <table> (<entries>);` with one entry
`<col> <type>` per column, emitted in the column order of the
DataFrame (the first-seen field order of the batch) and separated by
a comma and a newline. -/
theorem C4_ddl_shape (df : List Column) (t : String) (tok : Column → String)
    (h : ∀ c ∈ df, get_mysql_field c.dtype (colLength c) = Except.ok (tok c)) :
    create_query df t = Except.ok ("CREATE TABLE IF NOT EXISTS " ++ t ++ " (" ++
      String.intercalate ",\n" (df.map (fun c => c.name ++ " " ++ tok c)) ++ ");") := by
  unfold create_query
  rw [fieldEntries_ok df tok h]

/-- The tokens inference assigns to `twoColDF`. -/
def twoColTok : Column → String :=
  fun c => if c.name = "a" then "INT" else "BOOL"

/-- Witness for C4_ddl_shape on the concrete two-column DataFrame. -/
theorem C4_ddl_shape_witness :
    (∀ c ∈ twoColDF, get_mysql_field c.dtype (colLength c) = Except.ok (twoColTok c)) ∧
    create_query twoColDF "t" = Except.ok ("CREATE TABLE IF NOT EXISTS " ++ "t" ++ " (" ++
      String.intercalate ",\n" (twoColDF.map (fun c => c.name ++ " " ++ twoColTok c)) ++ ");") :=
  ⟨by decide, C4_ddl_shape twoColDF "t" twoColTok (by decide)⟩

/-- Claim C8, as stated, is false: on the example batch the width of
`name` is the observed maximum 11 (the default 100 applies only when
the maximum serialized length is 0), and the separator is a comma and
a newline, so the generated DDL is not the claimed string. -/
theorem C8_counterexample :
    create_query exampleDF "t" ≠
      Except.ok "CREATE TABLE IF NOT EXISTS t (id INT, name VARCHAR(100), amt DOUBLE);" := by
  decide

/-- Claim C8 (amended): on the example batch inference assigns
`id INT`, `name VARCHAR(11)` (width = observed maximum 11, since the
default 100 applies only at maximum 0) and `amt DOUBLE`, and the DDL
is the comma-newline separated statement below. -/
theorem C8_example_ddl :
    create_query exampleDF "t" =
      Except.ok "CREATE TABLE IF NOT EXISTS t (id INT,\nname VARCHAR(11),\namt DOUBLE);" := by
  decide

/-- A string of 10001 characters, exceeding the VARCHAR ceiling. -/
def longString : String := String.mk (List.replicate 10001 'a')

/-- Claim C6, as stated, is false: a STRING column whose longest value
has 10001 characters gets width 10000 after clamping, which is below
the true maximum length, so the width is not always ≥ the true
maximum. -/
theorem C6_counterexample :
    strLenMax [Value.str longString] = 10001 ∧
    get_mysql_field "object" (strLenMax [Value.str longString]) =
      Except.ok "VARCHAR(10000)" ∧
    ¬ (10001 : Nat) ≤ 10000 := by
  have h1 : strLenMax [Value.str longString] = 10001 := by
    show Nat.max (String.mk (List.replicate 10001 'a')).length 0 = 10001
    rw [show (String.mk (List.replicate 10001 'a')).length =
      (List.replicate 10001 'a').length from rfl, List.length_replicate]
    decide
  refine ⟨h1, ?_, by omega⟩
  rw [h1]
  decide

/-- Claim C6 (amended): for every STRING-affinity column the inferred
width is at least the minimum of the true maximum serialized length
and the ceiling 10000, and is itself at most 10000; in particular the
width is never an underestimate whenever the true maximum is within
the ceiling. -/
theorem C6_width_lower_bound (ty : String) (vals : List Value)
    (hobj : containsSub (pyLower ty) "object" = true)
    (hint : containsSub (pyLower ty) "int" = false)
    (hfl : containsSub (pyLower ty) "float" = false) :
    ∃ w : Nat, get_mysql_field ty (strLenMax vals) =
      Except.ok ("VARCHAR(" ++ toString w ++ ")") ∧
      min (strLenMax vals) 10000 ≤ w ∧ w ≤ 10000 := by
  refine ⟨_, get_mysql_field_object ty (strLenMax vals) hobj hint hfl, ?_, ?_⟩
  · by_cases h0 : strLenMax vals = 0
    · simp [h0]
    · simp only [if_neg h0]
      by_cases h1 : strLenMax vals > 10000
      · rw [if_pos h1]
        exact Nat.min_le_right _ _
      · rw [if_neg h1]
        exact Nat.min_le_left _ _
  · by_cases h0 : strLenMax vals = 0
    · simp [h0]
    · simp only [if_neg h0]
      by_cases h1 : strLenMax vals > 10000
      · rw [if_pos h1]
      · rw [if_neg h1]
        omega

/-- Witness for C6_width_lower_bound on the column of the single value "hi". -/
theorem C6_width_lower_bound_witness :
    ∃ w : Nat, get_mysql_field "object" (strLenMax [Value.str "hi"]) =
      Except.ok ("VARCHAR(" ++ toString w ++ ")") ∧
      min (strLenMax [Value.str "hi"]) 10000 ≤ w ∧ w ≤ 10000 :=
  C6_width_lower_bound "object" [Value.str "hi"] (by decide) (by decide) (by decide)

/-- A one-record batch whose field `f` is the empty string. -/
def cexBatch1 : List Rec := [[("f", Value.str "")]]

/-- `cexBatch1` extended by one record whose field `f` is "abcde". -/
def cexBatch2 : List Rec := [[("f", Value.str "")], [("f", Value.str "abcde")]]

/-- Claim C7, as stated, is false: width inference is not monotone
under batch inclusion.  The smaller batch (one record whose value
serializes to length 0) gets the default width 100, the larger batch
(maximum serialized length 5) gets width 5, and 100 > 5. -/
theorem C7_counterexample :
    cexBatch1 ⊆ cexBatch2 ∧
    get_mysql_field "object" (strLenMax (colVals "f" cexBatch1)) =
      Except.ok "VARCHAR(100)" ∧
    get_mysql_field "object" (strLenMax (colVals "f" cexBatch2)) =
      Except.ok "VARCHAR(5)" ∧
    ¬ (100 : Nat) ≤ 5 := by
  refine ⟨?_, by decide, by decide, by omega⟩
  intro a ha
  simp only [cexBatch1, List.mem_singleton] at ha
  simp [cexBatch2, ha]

/-- Claim C7 (amended): width inference is monotone under batch
inclusion as long as the smaller batch does not hit the default
branch, i.e. its maximum serialized length for the shared field is
positive; both widths are always at most 10000.  (Without the
positivity condition the claim fails, see the counterexample.) -/
theorem C7_width_monotone (ty f : String) (rs1 rs2 : List Rec)
    (hobj : containsSub (pyLower ty) "object" = true)
    (hint : containsSub (pyLower ty) "int" = false)
    (hfl : containsSub (pyLower ty) "float" = false)
    (hsub : rs1 ⊆ rs2)
    (hpos : 0 < strLenMax (colVals f rs1)) :
    ∃ w1 w2 : Nat,
      get_mysql_field ty (strLenMax (colVals f rs1)) =
        Except.ok ("VARCHAR(" ++ toString w1 ++ ")") ∧
      get_mysql_field ty (strLenMax (colVals f rs2)) =
        Except.ok ("VARCHAR(" ++ toString w2 ++ ")") ∧
      w1 ≤ w2 ∧ w1 ≤ 10000 ∧ w2 ≤ 10000 := by
  have hmono : strLenMax (colVals f rs1) ≤ strLenMax (colVals f rs2) :=
    strLenMax_mono (List.map_subset _ hsub)
  refine ⟨_, _, get_mysql_field_object ty _ hobj hint hfl,
    get_mysql_field_object ty _ hobj hint hfl, ?_, ?_, ?_⟩ <;>
    split_ifs <;> omega

/-- Witness for C7_width_monotone on a concrete pair of nested batches. -/
theorem C7_width_monotone_witness :
    ∃ w1 w2 : Nat,
      get_mysql_field "object" (strLenMax (colVals "f" [[("f", Value.str "ab")]])) =
        Except.ok ("VARCHAR(" ++ toString w1 ++ ")") ∧
      get_mysql_field "object"
        (strLenMax (colVals "f" [[("f", Value.str "ab")], [("f", Value.str "xyz")]])) =
        Except.ok ("VARCHAR(" ++ toString w2 ++ ")") ∧
      w1 ≤ w2 ∧ w1 ≤ 10000 ∧ w2 ≤ 10000 :=
  C7_width_monotone "object" "f" [[("f", Value.str "ab")]]
    [[("f", Value.str "ab")], [("f", Value.str "xyz")]]
    (by decide) (by decide) (by decide)
    (by intro a ha; simp only [List.mem_singleton] at ha; simp [ha]) (by decide)

/-- Claim C3 concerns a code bug: the very first statement of
`load_transformed` evaluates an f-string whose names `table_name`,
`columns` and `values` are unbound, so every call (the first one
included) raises `NameError` before any write; the promised
idempotent re-run never gets to execute. -/
theorem C3_load_first_call_raises :
    load_transformed exampleBatch =
      Except.error "NameError: name table_name is not defined" := by
  decide

/-- Claim C9 concerns the same code bug: no call of `load_transformed`
completes successfully, and the function body has no return statement
anyway (the non-raising path would return `None`), so a successful
call returning a row count never happens. -/
theorem C9_load_never_returns_count (data : List Rec) :
    load_transformed data ≠ Except.ok () := by
  unfold load_transformed
  decide

end Loka
